import Mathlib

/-!
# Receiver service: ingestion handler and persistence providers

A shallow embedding of

* `pkg/service/service.go` (`postImage`, `postImages`),
* `pkg/providers/imager.go` (the provider interface),
* `pkg/providers/images/image.go` and `pkg/images/image.go`
  (`SaveImage`, `LoadImage`, `execInTx`, `connect`),

followed by the theorems about them.

Conventions of the embedding.

* A Go `error` is its message: `Option String` for a possibly-nil error,
  `Except String α` for the pair `(α, error)`.
* `int64` and `int` values are `Int`; the conversion `uint64(x)` is written
  out as a remainder modulo `2 ^ 64`.
* A Go `string` that is printed is a Lean `String`; `[]byte(s)` is its UTF-8
  encoding.
* Calls to collaborators (the providers, `database/sql`) are recorded in a
  log in the order in which they return, so that statements about which
  calls happen, and in which order, are statements about that log.
-/

set_option linter.dupNamespace false

deriving instance DecidableEq for Except

/-! ## `models` (declarations not among the sources) -/

namespace models

/-- Modelled from the spec: the declaration of `models.Status` is not among
the sources. The spec calls it an "enumerated lifecycle state" that is "stored
as the enum's integer code", and `LoadImage` converts an `int` to it with
`models.Status(status)`, so it is an integer code. -/
structure Status where
  code : Int
  deriving DecidableEq, Repr

/-- Modelled from the spec: the constant `models.PENDING` is not among the
sources. The spec names `PENDING` as the "initial lifecycle status"; it is
taken to be the first enumerator, code `0`. No theorem below depends on the
numeric value. -/
def PENDING : Status := ⟨0⟩

/-- Modelled from the spec: the declaration of `models.Image` is not among the
sources. The fields are the four that the sources read and write (`ID` of type
`int64`, `PersonID` of type `int`, `Path` of type `[]byte`, `Status`), which
are the spec's `id`, `personId`, `path`, `status`. -/
structure Image where
  ID : Int
  PersonID : Int
  Path : List UInt8
  Status : Status
  deriving DecidableEq, Repr

end models

/-! ## Go primitives used by the sources -/

/-- The conversion `[]byte(s)` of a string. -/
def bytesOf (s : String) : List UInt8 := s.toUTF8.data.toList

/-- The conversion `uint64(x)` of an `int64`. -/
def uint64 (x : Int) : Nat := (x % 2 ^ 64).toNat

/-- The message of `errors.Join(a, b)`; `none` when both are nil. -/
def errorsJoin (a b : Option String) : Option String :=
  match a, b with
  | none, none => none
  | some x, none => some x
  | none, some y => some y
  | some x, some y => some (x ++ "\n" ++ y)

/-- An `http.ResponseWriter` as the handlers use it: the status line, unset
until the header is written, and the bytes of the body written so far. -/
structure ResponseWriter where
  status : Option Nat
  body : String
  deriving DecidableEq, Repr

namespace ResponseWriter

/-- The writer a handler receives at the start of a request. -/
def fresh : ResponseWriter := ⟨none, ""⟩

/-- The method `WriteHeader(code)`: the first call fixes the status, later
calls are ignored. -/
def WriteHeader (w : ResponseWriter) (code : Nat) : ResponseWriter :=
  { w with status := some (w.status.getD code) }

/-- The method `Write`, reached through `fmt.Fprintf(w, ...)`: writes the
header with status 200 if it is not written yet, then appends to the body. -/
def Write (w : ResponseWriter) (s : String) : ResponseWriter :=
  { status := some (w.status.getD 200), body := w.body ++ s }

/-- The status the client sees when the handler has returned: 200 when the
handler never wrote a header. -/
def finalStatus (w : ResponseWriter) : Nat := w.status.getD 200

end ResponseWriter

/-- The function `http.Error(w, msg, code)`: write the header with `code`, then
the message and a newline. -/
def httpError (w : ResponseWriter) (msg : String) (code : Nat) : ResponseWriter :=
  (w.WriteHeader code).Write (msg ++ "\n")

/-! ## `pkg/service/service.go` -/

namespace service

/-- The struct `Path`: a single path of an image to process. -/
structure Path where
  Path : String
  deriving DecidableEq, Repr

/-- The struct `Paths`: a batch of paths to process. -/
structure Paths where
  Paths : List Path
  deriving DecidableEq, Repr

/-- The verb `%+v` applied to a `Path`. -/
def fmtPath (p : Path) : String := "\x7bPath:" ++ p.Path ++ "\x7d"

/-- The verb `%+v` applied to a `Paths`. -/
def fmtPaths (p : Paths) : String :=
  "\x7bPaths:[" ++ " ".intercalate (p.Paths.map fmtPath) ++ "]\x7d"

/-- The three uses the handlers make of `encoding/json`, taken as parameters:
decoding a request body into a `Path`, decoding one into a `Paths`, and
encoding a `Paths` into a body. `Body` is the type of request bodies. -/
structure Json (Body : Type) where
  decodePath : Body → Except String Path
  decodePaths : Body → Except String Paths
  encodePaths : Paths → Except String Body

/-- The struct `Dependencies` (without the logger): the two providers, each a
transition on the state `σ` of the world outside the handler. `SaveImage`
returns the saved image or an error (`providers.ImageProvider`), `SendImage`
returns a possibly-nil error. A provider that returns a nil error is taken to
return a non-nil image, as both implementations in the repository do. -/
structure Dependencies (σ : Type) where
  SaveImage : models.Image → σ → Except String models.Image × σ
  SendImage : Nat → σ → Option String × σ

/-- One call to a provider, with its argument and what it returned. -/
inductive Call where
  | SaveImage (image : models.Image) (result : Except String models.Image)
  | SendImage (id : Nat) (result : Option String)
  deriving DecidableEq

/-- The record a `SaveImage` call was given. -/
def Call.saveArgument : Call → Option models.Image
  | Call.SaveImage image _ => some image
  | Call.SendImage _ _ => none

/-- The identifier a `SendImage` call was given. -/
def Call.sendArgument : Call → Option Nat
  | Call.SaveImage _ _ => none
  | Call.SendImage id _ => some id

/-- What a handler has done when it returns: the response, the state of the
world, and the calls it has made to the providers, oldest first. -/
structure Exchange (σ : Type) where
  w : ResponseWriter
  st : σ
  calls : List Call

/-- The record `postImages` builds for one submitted path (lines 113-118). -/
def newImage (path : Path) : models.Image :=
  { ID := -1, PersonID := -1, Path := bytesOf path.Path, Status := models.PENDING }

/-- The `for _, path := range p.Paths` loop of `postImages` (lines 112-134). -/
def postImagesLoop {σ : Type} (deps : Dependencies σ) : List Path → Exchange σ → Exchange σ
  | [], x => x
  | path :: rest, x =>
    let image := newImage path
    match deps.SaveImage image x.st with
    | (.error err, st) =>
      postImagesLoop deps rest
        { w := x.w.Write ("got error while saving image: " ++ err ++ "; moving on to next...")
          st := st
          calls := x.calls ++ [Call.SaveImage image (.error err)] }
    | (.ok savedImage, st) =>
      let w := x.w.Write ("image saved with id: " ++ toString savedImage.ID ++ "\n")
      match deps.SendImage (uint64 savedImage.ID) st with
      | (some err, st) =>
        postImagesLoop deps rest
          { w := w.Write ("error while sending image to queue: " ++ err)
            st := st
            calls := x.calls ++ [Call.SaveImage image (.ok savedImage),
                                 Call.SendImage (uint64 savedImage.ID) (some err)] }
      | (none, st) =>
        postImagesLoop deps rest
          { w := w.Write "image sent to nsq\n"
            st := st
            calls := x.calls ++ [Call.SaveImage image (.ok savedImage),
                                 Call.SendImage (uint64 savedImage.ID) none] }

/-- The header line `postImages` writes for an accepted batch (line 111). -/
def header (p : Paths) : String :=
  "got paths: " ++ fmtPaths p ++ " with length: " ++ toString p.Paths.length ++ "\n"

/-- The handler `postImages`, run on the writer `w`, the request body `body`
and the world `st`. -/
def postImages {Body σ : Type} (J : Json Body) (deps : Dependencies σ)
    (w : ResponseWriter) (body : Body) (st : σ) : Exchange σ :=
  match J.decodePaths body with
  | .error err =>
    { w := httpError w ("got error while decoding request body: " ++ err) 400
      st := st, calls := [] }
  | .ok p =>
    if p.Paths.length = 0 then
      { w := httpError w "paths cannot be empty" 400, st := st, calls := [] }
    else
      postImagesLoop deps p.Paths { w := w.Write (header p), st := st, calls := [] }

/-- The handler `postImage`. -/
def postImage {Body σ : Type} (J : Json Body) (deps : Dependencies σ)
    (w : ResponseWriter) (body : Body) (st : σ) : Exchange σ :=
  match J.decodePath body with
  | .error err =>
    { w := httpError w ("got error while decoding body: " ++ err) 500
      st := st, calls := [] }
  | .ok p =>
    if p.Path = "" then
      { w := httpError w "path cannot be an empty string" 400, st := st, calls := [] }
    else
      let w := w.Write ("got path: " ++ fmtPath p ++ "\n")
      let ps : Paths := { Paths := [p] }
      match J.encodePaths ps with
      | .error err =>
        { w := httpError w ("failed to encode paths: " ++ err) 500, st := st, calls := [] }
      | .ok pathsJSON => postImages J deps w pathsJSON st

end service

/-! ## `database/sql` as the persistence providers use it -/

namespace sql

/-- A row of the table `images`: the columns `id`, `path`, `person`, `status`. -/
structure Row where
  id : Int
  path : List UInt8
  person : Int
  status : Int
  deriving DecidableEq, Repr

/-- The database: the committed rows of `images` and the last value handed out
by the auto-increment column `id`. -/
structure Store where
  images : List Row
  lastId : Int
  deriving DecidableEq, Repr

/-- What each call into `database/sql` returns during one run of `execInTx`
(each is made at most once in a run): `none` is a nil error. `stmtErr` is the
error of the one statement the callback runs (`tx.Exec` or `tx.QueryRow`). -/
structure Faults where
  openErr : Option String
  pingErr : Option String
  beginErr : Option String
  stmtErr : Option String
  commitErr : Option String
  rollbackErr : Option String
  closeErr : Option String
  deriving DecidableEq, Repr

/-- The run in which every call succeeds. -/
def Faults.none : Faults := ⟨.none, .none, .none, .none, .none, .none, .none⟩

/-- A call into `database/sql`, with the error it returned. -/
inductive Event where
  | Open (err : Option String)
  | Ping (err : Option String)
  | BeginTx (err : Option String)
  | Exec (err : Option String)
  | QueryRow (err : Option String)
  | Commit (err : Option String)
  | Rollback (err : Option String)
  | Close (err : Option String)
  deriving DecidableEq, Repr

/-- The state of one run: the database, the rows the open transaction has
inserted and not yet committed, whether the transaction has already been
committed or rolled back, and the calls made so far, oldest first. -/
structure Session where
  store : Store
  staged : List Row
  txDone : Bool
  log : List Event
  deriving DecidableEq, Repr

/-- The state in which a run starts. -/
def Session.start (store : Store) : Session :=
  { store := store, staged := [], txDone := false, log := [] }

/-- The interface `sql.Result` of a successful `Exec`; the sources use only
`LastInsertId`. -/
structure Result where
  lastInsertId : Int
  deriving DecidableEq, Repr

/-- The function `sql.Open`. -/
def Open (F : Faults) (s : Session) : Option String × Session :=
  (F.openErr, { s with log := s.log ++ [Event.Open F.openErr] })

/-- The method `db.Ping`. -/
def Ping (F : Faults) (s : Session) : Option String × Session :=
  (F.pingErr, { s with log := s.log ++ [Event.Ping F.pingErr] })

/-- The method `db.BeginTx`. -/
def BeginTx (F : Faults) (s : Session) : Option String × Session :=
  (F.beginErr, { s with log := s.log ++ [Event.BeginTx F.beginErr] })

/-- The method `tx.Exec` on the statement
`insert into images (path, person, status) values (?, ?, ?)`: on success the
row is staged under the next auto-increment id. -/
def Exec (F : Faults) (path : List UInt8) (person status : Int) (s : Session) :
    Except String Result × Session :=
  match F.stmtErr with
  | some e => (.error e, { s with log := s.log ++ [Event.Exec (some e)] })
  | .none =>
    let id := s.store.lastId + 1
    (.ok ⟨id⟩,
     { s with store := { s.store with lastId := id }
              staged := s.staged ++ [⟨id, path, person, status⟩]
              log := s.log ++ [Event.Exec .none] })

/-- The method `tx.QueryRow` on the statement
`select id, path, person, status from images where id = ?`: the `*sql.Row` it
returns holds an error, or the first matching row if there is one. -/
def QueryRow (F : Faults) (id : Int) (s : Session) : Except String (Option Row) × Session :=
  match F.stmtErr with
  | some e => (.error e, { s with log := s.log ++ [Event.QueryRow (some e)] })
  | .none =>
    (.ok ((s.store.images ++ s.staged).find? (fun r => r.id = id)),
     { s with log := s.log ++ [Event.QueryRow .none] })

/-- The method `tx.Commit`: a finished transaction returns `ErrTxDone`;
otherwise the transaction is finished, and its rows are committed when the
commit succeeds. -/
def Commit (F : Faults) (s : Session) : Option String × Session :=
  if s.txDone then
    let e := some "sql: transaction has already been committed or rolled back"
    (e, { s with log := s.log ++ [Event.Commit e] })
  else
    match F.commitErr with
    | some e =>
      (some e, { s with staged := [], txDone := true, log := s.log ++ [Event.Commit (some e)] })
    | .none =>
      (.none, { s with store := { s.store with images := s.store.images ++ s.staged }
                       staged := [], txDone := true, log := s.log ++ [Event.Commit .none] })

/-- The method `tx.Rollback`: a finished transaction returns `ErrTxDone`;
otherwise the transaction is finished and its rows are discarded. -/
def Rollback (F : Faults) (s : Session) : Option String × Session :=
  if s.txDone then
    let e := some "sql: transaction has already been committed or rolled back"
    (e, { s with log := s.log ++ [Event.Rollback e] })
  else
    (F.rollbackErr,
     { s with staged := [], txDone := true, log := s.log ++ [Event.Rollback F.rollbackErr] })

/-- The method `db.Close`. -/
def Close (F : Faults) (s : Session) : Option String × Session :=
  (F.closeErr, { s with log := s.log ++ [Event.Close F.closeErr] })

/-- A value of a column. -/
inductive Value where
  | int (i : Int)
  | bytes (b : List UInt8)
  deriving DecidableEq, Repr

/-- The columns of a row of `images`, with their names, in the order of the
select list. -/
def Row.columns (r : Row) : List (String × Value) :=
  [("id", .int r.id), ("path", .bytes r.path), ("person", .int r.person),
   ("status", .int r.status)]

/-- A destination argument of `Scan`, for a caller whose local variables are
`κ`: a pointer through which a column value is stored, or anything that is not
a pointer. -/
inductive Dest (κ : Type) where
  | pointer (store : Value → κ → κ)
  | value

/-- The loop of `Rows.Scan`: column `i` is assigned through destination `i`;
the first destination that is not a pointer ends the scan with an error, the
earlier assignments having been made. -/
def scanColumns {κ : Type} : List (String × Value) → List (Dest κ) → Nat → κ → Option String × κ
  | (_, v) :: cols, Dest.pointer store :: dest, i, k => scanColumns cols dest (i + 1) (store v k)
  | (name, _) :: _, Dest.value :: _, i, k =>
    (some ("sql: Scan error on column index " ++ toString i ++ ", name \"" ++ name
            ++ "\": destination not a pointer"), k)
  | _, _, _, k => (.none, k)

/-- The method `(*sql.Row).Scan`: the error of the query; `ErrNoRows` when no
row matched; an error when the number of destinations is not the number of
columns; otherwise the column-by-column assignment. -/
def Scan {κ : Type} (row : Except String (Option Row)) (dest : List (Dest κ)) (k : κ) :
    Option String × κ :=
  match row with
  | .error e => (some e, k)
  | .ok .none => (some "sql: no rows in result set", k)
  | .ok (some r) =>
    if dest.length ≠ r.columns.length then
      (some ("sql: expected " ++ toString r.columns.length
              ++ " destination arguments in Scan, not " ++ toString dest.length), k)
    else scanColumns r.columns dest 0 k

/-- The handle returned by `sql.Open` was obtained. -/
def handleOpened (log : List Event) : Bool := log.contains (Event.Open .none)

/-- The method `db.Close` has been called. -/
def closeCalled (log : List Event) : Bool :=
  log.any (fun e => match e with | Event.Close _ => true | _ => false)

/-- The transaction was begun. -/
def txBegun (log : List Event) : Bool := log.contains (Event.BeginTx .none)

/-- The method `tx.Commit` has succeeded. -/
def txCommitted (log : List Event) : Bool := log.contains (Event.Commit .none)

/-- The method `tx.Rollback` has been called. -/
def rollbackCalled (log : List Event) : Bool :=
  log.any (fun e => match e with | Event.Rollback _ => true | _ => false)

end sql

/-! ## `pkg/providers/images/image.go` -/

namespace providers.images

/-- The method `connect` (lines 131-142): open the handle, then ping. The
handle itself is implicit in the session. -/
def connect (F : sql.Faults) (s : sql.Session) : Option String × sql.Session :=
  match sql.Open F s with
  | (some err, s) => (some ("failed to open connection to database: " ++ err), s)
  | (none, s) =>
    match sql.Ping F s with
    | (some err, s) => (some ("failed to estabilish connection to database: " ++ err), s)
    | (none, s) => (none, s)

/-- The method `execInTx` (lines 93-121). `κ` is the type of the variables the
callback `f` captures, `k` their value on entry. The deferred `db.Close` runs
after the body has set the named result `err`, and joins its own error to it. -/
def execInTx {κ : Type} (F : sql.Faults)
    (f : κ → sql.Session → Option String × κ × sql.Session) (k : κ) (s : sql.Session) :
    Option String × κ × sql.Session :=
  match connect F s with
  | (some err, s) => (some ("failed to connect to database: " ++ err), k, s)
  | (none, s) =>
    let body : Option String × κ × sql.Session :=
      match sql.BeginTx F s with
      | (some err, s) => (some ("failed to create transaction: " ++ err), k, s)
      | (none, s) =>
        match f k s with
        | (some err, k, s) =>
          match sql.Rollback F s with
          | (some rerr, s) =>
            (some ("failed to run function in transaction: " ++ (err ++ "\n" ++ rerr)), k, s)
          | (none, s) => (some ("failed to run function in transaction: " ++ err), k, s)
        | (none, k, s) =>
          match sql.Commit F s with
          | (some err, s) => (some ("failed to commit transaction: " ++ err), k, s)
          | (none, s) => (none, k, s)
    match body with
    | (err, k, s) =>
      match sql.Close F s with
      | (some cerr, s) => (errorsJoin err (some cerr), k, s)
      | (none, s) => (err, k, s)

/-- The closure `f` of `SaveImage` (lines 41-49): run the insert and keep its
`sql.Result` in the variable `result` of `SaveImage`. -/
def SaveImage.f (F : sql.Faults) (image : models.Image) :
    Option sql.Result → sql.Session → Option String × Option sql.Result × sql.Session :=
  fun _ tx =>
    match sql.Exec F image.Path image.PersonID image.Status.code tx with
    | (.error err, tx) => (some ("failed to insert image: " ++ err), none, tx)
    | (.ok result, tx) => (none, some result, tx)

/-- The method `SaveImage` (lines 34-59), run on the database `store` with the
`database/sql` calls behaving as `F` says. The second component is the state
in which the run ends. `result` is `some` whenever `execInTx` returns nil (the
callback has run and succeeded); the code would dereference a nil interface
otherwise. -/
def SaveImage (F : sql.Faults) (image : models.Image) (store : sql.Store) :
    Except String models.Image × sql.Session :=
  match execInTx F (SaveImage.f F image) none (sql.Session.start store) with
  | (some err, _, s) => (.error ("failed to run transaction: " ++ err), s)
  | (none, result, s) =>
    let id := match result with
      | some r => r.lastInsertId
      | none => 0
    (.ok { image with ID := id }, s)

/-- The local variables `imageID`, `path`, `person`, `status` of `LoadImage`
(lines 65-70); the string `path` is kept as its bytes. -/
structure LoadImage.Vars where
  imageID : Int
  path : List UInt8
  person : Int
  status : Int
  deriving DecidableEq, Repr

/-- The destinations `&imageID, &path, &person, status` that `LoadImage` hands
to `Scan` (line 72): three pointers, and the value of `status`. -/
def LoadImage.dest : List (sql.Dest LoadImage.Vars) :=
  [ sql.Dest.pointer (fun v k => match v with
      | .int i => { k with imageID := i }
      | .bytes _ => k),
    sql.Dest.pointer (fun v k => match v with
      | .bytes b => { k with path := b }
      | .int _ => k),
    sql.Dest.pointer (fun v k => match v with
      | .int i => { k with person := i }
      | .bytes _ => k),
    sql.Dest.value ]

/-- The closure `f` of `LoadImage` (lines 71-77). -/
def LoadImage.f (F : sql.Faults) (id : Int) :
    LoadImage.Vars → sql.Session → Option String × LoadImage.Vars × sql.Session :=
  fun k tx =>
    match sql.QueryRow F id tx with
    | (row, tx) =>
      match sql.Scan row LoadImage.dest k with
      | (some err, k) => (some ("failed to run query: " ++ err), k, tx)
      | (none, k) => (none, k, tx)

/-- The method `LoadImage` (lines 62-90). -/
def LoadImage (F : sql.Faults) (id : Int) (store : sql.Store) :
    Except String models.Image × sql.Session :=
  match execInTx F (LoadImage.f F id) ⟨0, [], 0, 0⟩ (sql.Session.start store) with
  | (some err, _, s) => (.error ("failed to run query in transaction: " ++ err), s)
  | (none, k, s) =>
    (.ok { ID := k.imageID, Path := k.path, PersonID := k.person, Status := ⟨k.status⟩ }, s)

end providers.images

/-! ## `pkg/images/image.go` -/

namespace images

/-- The method `connect` (lines 131-133): the result of `sql.Open`, as it is. -/
def connect (F : sql.Faults) (s : sql.Session) : Option String × sql.Session :=
  sql.Open F s

/-- The method `execInTx` (lines 93-121). `κ` is the type of the variables the
callback `f` captures, `k` their value on entry. The two deferred functions
run when the body returns, last registered first: `db.Close`, then
`tx.Rollback`; their errors are printed and dropped. -/
def execInTx {κ : Type} (F : sql.Faults)
    (f : κ → sql.Session → Option String × κ × sql.Session) (k : κ) (s : sql.Session) :
    Option String × κ × sql.Session :=
  match connect F s with
  | (some err, s) => (some ("failed to connect to database: " ++ err), k, s)
  | (none, s) =>
    match sql.BeginTx F s with
    | (some err, s) => (some ("failed to create transaction: " ++ err), k, s)
    | (none, s) =>
      let body : Option String × κ × sql.Session :=
        match f k s with
        | (some err, k, s) => (some ("failed to run function in transaction: " ++ err), k, s)
        | (none, k, s) =>
          match sql.Commit F s with
          | (some err, s) => (some ("failed to commit transaction: " ++ err), k, s)
          | (none, s) => (none, k, s)
      match body with
      | (err, k, s) =>
        match sql.Close F s with
        | (_, s) =>
          match sql.Rollback F s with
          | (_, s) => (err, k, s)

/-- The closure `f` of `SaveImage` (lines 41-49): run the insert and keep its
`sql.Result` in the variable `result` of `SaveImage`. -/
def SaveImage.f (F : sql.Faults) (image : models.Image) :
    Option sql.Result → sql.Session → Option String × Option sql.Result × sql.Session :=
  fun _ tx =>
    match sql.Exec F image.Path image.PersonID image.Status.code tx with
    | (.error err, tx) => (some ("failed to insert image: " ++ err), none, tx)
    | (.ok result, tx) => (none, some result, tx)

/-- The method `SaveImage` (lines 34-59), run on the database `store` with the
`database/sql` calls behaving as `F` says. The second component is the state
in which the run ends. `result` is `some` whenever `execInTx` returns nil (the
callback has run and succeeded); the code would dereference a nil interface
otherwise. -/
def SaveImage (F : sql.Faults) (image : models.Image) (store : sql.Store) :
    Except String models.Image × sql.Session :=
  match execInTx F (SaveImage.f F image) none (sql.Session.start store) with
  | (some err, _, s) => (.error ("failed to run transaction: " ++ err), s)
  | (none, result, s) =>
    let id := match result with
      | some r => r.lastInsertId
      | none => 0
    (.ok { image with ID := id }, s)

/-- The local variables `imageID`, `path`, `person`, `status` of `LoadImage`
(lines 65-70); the string `path` is kept as its bytes. -/
structure LoadImage.Vars where
  imageID : Int
  path : List UInt8
  person : Int
  status : Int
  deriving DecidableEq, Repr

/-- The destinations `&imageID, &path, &person, status` that `LoadImage` hands
to `Scan` (line 72): three pointers, and the value of `status`. -/
def LoadImage.dest : List (sql.Dest LoadImage.Vars) :=
  [ sql.Dest.pointer (fun v k => match v with
      | .int i => { k with imageID := i }
      | .bytes _ => k),
    sql.Dest.pointer (fun v k => match v with
      | .bytes b => { k with path := b }
      | .int _ => k),
    sql.Dest.pointer (fun v k => match v with
      | .int i => { k with person := i }
      | .bytes _ => k),
    sql.Dest.value ]

/-- The closure `f` of `LoadImage` (lines 71-77). -/
def LoadImage.f (F : sql.Faults) (id : Int) :
    LoadImage.Vars → sql.Session → Option String × LoadImage.Vars × sql.Session :=
  fun k tx =>
    match sql.QueryRow F id tx with
    | (row, tx) =>
      match sql.Scan row LoadImage.dest k with
      | (some err, k) => (some ("failed to run query: " ++ err), k, tx)
      | (none, k) => (none, k, tx)

/-- The method `LoadImage` (lines 62-90). -/
def LoadImage (F : sql.Faults) (id : Int) (store : sql.Store) :
    Except String models.Image × sql.Session :=
  match execInTx F (LoadImage.f F id) ⟨0, [], 0, 0⟩ (sql.Session.start store) with
  | (some err, _, s) => (.error ("failed to run query in transaction: " ++ err), s)
  | (none, k, s) =>
    (.ok { ID := k.imageID, Path := k.path, PersonID := k.person, Status := ⟨k.status⟩ }, s)

end images

/-! ## Concrete collaborators, for running the handlers on concrete requests -/

namespace service

/-- A JSON object as the two decoders read it: the member `path`, if present,
and the member `paths`, if present, with the `path` member of each element. -/
structure Doc where
  path : Option String
  paths : Option (List (Option String))
  deriving DecidableEq, Repr

/-- An instance of `Json` on bodies that are a JSON object (`some`) or
empty (`none`): decoding an empty body fails with `EOF`, an absent member
decodes to the zero value, and `Paths` is encoded as an object with the one
member `paths`. -/
def docJson : Json (Option Doc) where
  decodePath b :=
    match b with
    | none => .error "EOF"
    | some d => .ok ⟨d.path.getD ""⟩
  decodePaths b :=
    match b with
    | none => .error "EOF"
    | some d => .ok ⟨(d.paths.getD []).map (fun e => ⟨e.getD ""⟩)⟩
  encodePaths ps := .ok (some ⟨none, some (ps.Paths.map (fun e => some e.Path))⟩)

/-- The body of a batch request: an object whose member `paths` lists the
given paths. -/
def batchBody (paths : List String) : Option Doc := some ⟨none, some (paths.map some)⟩

/-- The body of a single request: an object whose member `path` is `p`. -/
def singleBody (p : String) : Option Doc := some ⟨some p, none⟩

/-- Dependencies whose image provider is `pkg/providers/images` on a database
behaving as `F` says on every call, and whose send provider returns `sendErr`
on every call. The state of the world is the database. -/
def storeDependencies (F : sql.Faults) (sendErr : Option String) : Dependencies sql.Store where
  SaveImage image st := ((providers.images.SaveImage F image st).1,
                         (providers.images.SaveImage F image st).2.store)
  SendImage _ st := (sendErr, st)

/-- The empty database. -/
def emptyStore : sql.Store := { images := [], lastId := 0 }

end service

set_option maxRecDepth 100000

/-! ## Lemmas on the loop of `postImages` -/

theorem join_cons_text (a : String) (l : List String) :
    String.join (a :: l) = a ++ String.join l := by
  apply String.ext
  simp [String.data_join]

/-- The loop of `postImages`, item by item: from a world `st` the loop makes,
for each path in order, one group of calls and writes one piece of text, both
fixed by `st` alone; the group and the text of an item have one of three
shapes (save failed; saved and send failed; saved and sent). -/
theorem postImagesLoop_items {σ : Type} (deps : service.Dependencies σ)
    (paths : List service.Path) (st : σ) :
    ∃ (items : List (List service.Call × String)) (final : σ),
      List.Forall₂ (fun path item =>
        (∃ err, item = ([service.Call.SaveImage (service.newImage path) (.error err)],
            "got error while saving image: " ++ err ++ "; moving on to next...")) ∨
        (∃ saved err, item =
            ([service.Call.SaveImage (service.newImage path) (.ok saved),
              service.Call.SendImage (uint64 saved.ID) (some err)],
             "image saved with id: " ++ toString saved.ID ++ "\n"
               ++ ("error while sending image to queue: " ++ err))) ∨
        (∃ saved, item =
            ([service.Call.SaveImage (service.newImage path) (.ok saved),
              service.Call.SendImage (uint64 saved.ID) none],
             "image saved with id: " ++ toString saved.ID ++ "\n" ++ "image sent to nsq\n")))
        paths items ∧
      ∀ (w : ResponseWriter) (calls : List service.Call),
        (service.postImagesLoop deps paths ⟨w, st, calls⟩).calls
            = calls ++ (items.map Prod.fst).flatten ∧
        (service.postImagesLoop deps paths ⟨w, st, calls⟩).w.body
            = w.body ++ String.join (items.map Prod.snd) ∧
        (service.postImagesLoop deps paths ⟨w, st, calls⟩).st = final ∧
        ∀ c, w.status = some c →
          (service.postImagesLoop deps paths ⟨w, st, calls⟩).w.status = some c := by
  induction paths generalizing st with
  | nil =>
    refine ⟨[], st, List.Forall₂.nil, ?_⟩
    intro w calls
    simp [service.postImagesLoop, String.join]
  | cons path rest ih =>
    rcases hsave : deps.SaveImage (service.newImage path) st with ⟨res, st1⟩
    cases res with
    | error err =>
      obtain ⟨items, final, hshape, hrun⟩ := ih st1
      refine ⟨(_, _) :: items, final, List.Forall₂.cons (Or.inl ⟨err, rfl⟩) hshape, ?_⟩
      intro w calls
      obtain ⟨h1, h2, h3, h4⟩ := hrun
        (w.Write ("got error while saving image: " ++ err ++ "; moving on to next..."))
        (calls ++ [service.Call.SaveImage (service.newImage path) (.error err)])
      simp only [service.postImagesLoop, hsave]
      refine ⟨?_, ?_, h3, ?_⟩
      · rw [h1]; simp
      · rw [h2]; simp [ResponseWriter.Write, join_cons_text, String.append_assoc]
      · intro c hc
        apply h4
        simp [ResponseWriter.Write, hc]
    | ok saved =>
      rcases hsend : deps.SendImage (uint64 saved.ID) st1 with ⟨sres, st2⟩
      obtain ⟨items, final, hshape, hrun⟩ := ih st2
      cases sres with
      | some err =>
        refine ⟨(_, _) :: items, final,
          List.Forall₂.cons (Or.inr (Or.inl ⟨saved, err, rfl⟩)) hshape, ?_⟩
        intro w calls
        obtain ⟨h1, h2, h3, h4⟩ := hrun
          ((w.Write ("image saved with id: " ++ toString saved.ID ++ "\n")).Write
            ("error while sending image to queue: " ++ err))
          (calls ++ [service.Call.SaveImage (service.newImage path) (.ok saved),
                     service.Call.SendImage (uint64 saved.ID) (some err)])
        simp only [service.postImagesLoop, hsave, hsend]
        refine ⟨?_, ?_, h3, ?_⟩
        · rw [h1]; simp
        · rw [h2]; simp [ResponseWriter.Write, join_cons_text, String.append_assoc]
        · intro c hc
          apply h4
          simp [ResponseWriter.Write, hc]
      | none =>
        refine ⟨(_, _) :: items, final,
          List.Forall₂.cons (Or.inr (Or.inr ⟨saved, rfl⟩)) hshape, ?_⟩
        intro w calls
        obtain ⟨h1, h2, h3, h4⟩ := hrun
          ((w.Write ("image saved with id: " ++ toString saved.ID ++ "\n")).Write
            "image sent to nsq\n")
          (calls ++ [service.Call.SaveImage (service.newImage path) (.ok saved),
                     service.Call.SendImage (uint64 saved.ID) none])
        simp only [service.postImagesLoop, hsave, hsend]
        refine ⟨?_, ?_, h3, ?_⟩
        · rw [h1]; simp
        · rw [h2]; simp [ResponseWriter.Write, join_cons_text, String.append_assoc]
        · intro c hc
          apply h4
          simp [ResponseWriter.Write, hc]

/-- The conversion `uint64(x)` keeps the value of a non-negative `int64`. -/
theorem uint64_of_nonneg (x : Int) (h0 : 0 ≤ x) (h1 : x < 2 ^ 64) : (uint64 x : Int) = x := by
  unfold uint64
  rw [Int.toNat_of_nonneg (Int.emod_nonneg _ (by norm_num)), Int.emod_eq_of_lt h0 h1]

/-- The conversion `uint64(x)` of a negative `int64` is `x + 2 ^ 64`. -/
theorem uint64_of_neg (x : Int) (h0 : x < 0) (h1 : -2 ^ 63 ≤ x) :
    (uint64 x : Int) = x + 2 ^ 64 := by
  unfold uint64
  rw [Int.toNat_of_nonneg (Int.emod_nonneg _ (by norm_num))]
  have h : (x + 2 ^ 64) % 2 ^ 64 = x + 2 ^ 64 :=
    Int.emod_eq_of_lt (by omega) (by omega)
  rw [← h, Int.add_emod_self]

/-- An accepted batch: `postImages` on a body that decodes to a non-empty
batch writes the header line and runs the loop. -/
theorem postImages_accepted {Body σ : Type} (J : service.Json Body)
    (deps : service.Dependencies σ) (w : ResponseWriter) (body : Body) (st : σ)
    (p : service.Paths) (hdec : J.decodePaths body = .ok p) (hne : p.Paths ≠ []) :
    service.postImages J deps w body st
      = service.postImagesLoop deps p.Paths ⟨w.Write (service.header p), st, []⟩ := by
  have hlen : ¬ p.Paths.length = 0 := by
    intro h
    exact hne (List.length_eq_zero.mp h)
  simp [service.postImages, hdec, hlen]

/-- A rejected request: `postImages` on a body that decodes to an empty batch
answers with `http.Error` and calls no provider. -/
theorem postImages_empty {Body σ : Type} (J : service.Json Body)
    (deps : service.Dependencies σ) (w : ResponseWriter) (body : Body) (st : σ)
    (p : service.Paths) (hdec : J.decodePaths body = .ok p) (he : p.Paths = []) :
    service.postImages J deps w body st
      = ⟨httpError w "paths cannot be empty" 400, st, []⟩ := by
  simp [service.postImages, hdec, he]

/-! ## C1: dispatch only after a successful save -/

/-- C1. For every decoded batch and every behaviour of the two providers, the
calls `postImages` makes are, item by item in submission order, one group per
item: either the single call `SaveImage` that returned an error (no
`SendImage` for that item, and the groups of the later items still follow),
or `SaveImage` that returned an image followed by `SendImage` with
`uint64(savedImage.ID)`, which is the returned id whenever that is not
negative. -/
theorem postImages_send_only_after_save {Body σ : Type} (J : service.Json Body)
    (deps : service.Dependencies σ) (w : ResponseWriter) (body : Body) (st : σ)
    (p : service.Paths) (hdec : J.decodePaths body = .ok p) :
    ∃ groups : List (List service.Call),
      groups.length = p.Paths.length ∧
      (service.postImages J deps w body st).calls = groups.flatten ∧
      ∀ (k : Nat) (hk : k < p.Paths.length) (hg : k < groups.length),
        (∃ err, groups.get ⟨k, hg⟩ =
          [service.Call.SaveImage (service.newImage (p.Paths.get ⟨k, hk⟩)) (.error err)]) ∨
        (∃ saved result, groups.get ⟨k, hg⟩ =
          [service.Call.SaveImage (service.newImage (p.Paths.get ⟨k, hk⟩)) (.ok saved),
           service.Call.SendImage (uint64 saved.ID) result] ∧
          (0 ≤ saved.ID → saved.ID < 2 ^ 64 → (uint64 saved.ID : Int) = saved.ID)) := by
  by_cases hne : p.Paths = []
  · refine ⟨[], by simp [hne], ?_, ?_⟩
    · rw [postImages_empty J deps w body st p hdec hne]
      rfl
    · intro k hk
      simp [hne] at hk
  · obtain ⟨items, final, hshape, hrun⟩ := postImagesLoop_items deps p.Paths st
    obtain ⟨hcalls, -, -, -⟩ := hrun (w.Write (service.header p)) []
    obtain ⟨hlen, hget⟩ := List.forall₂_iff_get.mp hshape
    refine ⟨items.map Prod.fst, by simp [hlen], ?_, ?_⟩
    · rw [postImages_accepted J deps w body st p hdec hne, hcalls]
      simp
    · intro k hk hg
      have hi : k < items.length := by simpa using hg
      rcases hget k hk hi with ⟨err, h⟩ | ⟨saved, err, h⟩ | ⟨saved, h⟩ <;>
        simp only [List.get_eq_getElem] at h
      · left
        exact ⟨err, by simp [h]⟩
      · right
        exact ⟨saved, some err, by simp [h], uint64_of_nonneg saved.ID⟩
      · right
        exact ⟨saved, none, by simp [h], uint64_of_nonneg saved.ID⟩

/-- C1 at a batch of two paths on a database that rejects every insert: both
saves are attempted, nothing is sent. -/
theorem postImages_send_only_after_save_witness :
    service.docJson.decodePaths (service.batchBody ["/a.jpg", "/b.jpg"])
        = .ok ⟨[⟨"/a.jpg"⟩, ⟨"/b.jpg"⟩]⟩ ∧
    ∃ groups : List (List service.Call),
      groups.length = 2 ∧
      (service.postImages service.docJson
          (service.storeDependencies { sql.Faults.none with stmtErr := some "rejected" } none)
          ResponseWriter.fresh (service.batchBody ["/a.jpg", "/b.jpg"])
          service.emptyStore).calls = groups.flatten ∧
      ∀ (k : Nat) (hk : k < 2) (hg : k < groups.length),
        (∃ err, groups.get ⟨k, hg⟩ =
          [service.Call.SaveImage
            (service.newImage ([(⟨"/a.jpg"⟩ : service.Path), ⟨"/b.jpg"⟩].get ⟨k, hk⟩))
            (.error err)]) ∨
        (∃ saved result, groups.get ⟨k, hg⟩ =
          [service.Call.SaveImage
            (service.newImage ([(⟨"/a.jpg"⟩ : service.Path), ⟨"/b.jpg"⟩].get ⟨k, hk⟩))
            (.ok saved),
           service.Call.SendImage (uint64 saved.ID) result] ∧
          (0 ≤ saved.ID → saved.ID < 2 ^ 64 → (uint64 saved.ID : Int) = saved.ID)) :=
  ⟨by decide,
   postImages_send_only_after_save service.docJson
     (service.storeDependencies { sql.Faults.none with stmtErr := some "rejected" } none)
     ResponseWriter.fresh (service.batchBody ["/a.jpg", "/b.jpg"]) service.emptyStore
     ⟨[⟨"/a.jpg"⟩, ⟨"/b.jpg"⟩]⟩ (by decide)⟩

/-! ## C8: the text of the response -/

/-- C8, as stated, fails: on the batch `["/a.jpg"]` with providers that
succeed, the body after the header line is the two lines
`image saved with id: 1` and `image sent to nsq`, so it is not one
newline-terminated line for the one item. -/
theorem postImages_one_line_per_item_fails :
    ¬ ∃ lines : List String,
        lines.length = 1 ∧ (∀ l ∈ lines, '\n' ∉ l.data) ∧
        (service.postImages service.docJson (service.storeDependencies sql.Faults.none none)
            ResponseWriter.fresh (service.batchBody ["/a.jpg"]) service.emptyStore).w.body
          = service.header ⟨[⟨"/a.jpg"⟩]⟩ ++ String.join (lines.map (fun l => l ++ "\n")) := by
  rintro ⟨lines, hlen, hno, hbody⟩
  obtain ⟨l, rfl⟩ := List.length_eq_one.mp hlen
  have hx : (service.postImages service.docJson (service.storeDependencies sql.Faults.none none)
            ResponseWriter.fresh (service.batchBody ["/a.jpg"]) service.emptyStore).w.body
          = service.header ⟨[⟨"/a.jpg"⟩]⟩
              ++ (("image saved with id: 1" ++ "\n" ++ "image sent to nsq") ++ "\n") := by
    decide
  rw [hx] at hbody
  have hd := congrArg String.data hbody
  simp only [String.data_append, String.data_join, List.map_cons, List.map_nil,
    List.flatten_cons, List.flatten_nil, List.append_nil] at hd
  have h1 := List.append_cancel_left hd
  have h2 := List.append_cancel_right h1
  have hmem : '\n' ∈ l.data := by
    rw [← h2]
    decide
  exact hno l (by simp) hmem

/-- C8, amended. For every accepted batch and every behaviour of the
providers, the body `postImages` writes after its header line is the
concatenation, in submission order, of one piece of text per item. For an item
that is saved and sent the piece is the two lines `image saved with id: <id>`
and `image sent to nsq`; for an item whose save fails it begins with
`got error while saving image: ` and the error; for an item whose dispatch
fails it is the line `image saved with id: <id>` followed by text that begins
with `error while sending image to queue: ` and the error. The status is 200
when the header was not written before. -/
theorem postImages_text_per_item {Body σ : Type} (J : service.Json Body)
    (deps : service.Dependencies σ) (w : ResponseWriter) (body : Body) (st : σ)
    (p : service.Paths) (hdec : J.decodePaths body = .ok p) (hne : p.Paths ≠ []) :
    ∃ items : List (List service.Call × String),
      items.length = p.Paths.length ∧
      (service.postImages J deps w body st).calls = (items.map Prod.fst).flatten ∧
      (service.postImages J deps w body st).w.body
        = w.body ++ service.header p ++ String.join (items.map Prod.snd) ∧
      (service.postImages J deps w body st).w.status = some (w.status.getD 200) ∧
      ∀ (k : Nat) (hk : k < p.Paths.length) (hi : k < items.length),
        (∃ err rest,
          (items.get ⟨k, hi⟩).1 =
            [service.Call.SaveImage (service.newImage (p.Paths.get ⟨k, hk⟩)) (.error err)] ∧
          (items.get ⟨k, hi⟩).2 = "got error while saving image: " ++ err ++ rest) ∨
        (∃ saved err rest,
          (items.get ⟨k, hi⟩).1 =
            [service.Call.SaveImage (service.newImage (p.Paths.get ⟨k, hk⟩)) (.ok saved),
             service.Call.SendImage (uint64 saved.ID) (some err)] ∧
          (items.get ⟨k, hi⟩).2 = "image saved with id: " ++ toString saved.ID ++ "\n"
              ++ ("error while sending image to queue: " ++ err ++ rest)) ∨
        (∃ saved,
          (items.get ⟨k, hi⟩).1 =
            [service.Call.SaveImage (service.newImage (p.Paths.get ⟨k, hk⟩)) (.ok saved),
             service.Call.SendImage (uint64 saved.ID) none] ∧
          (items.get ⟨k, hi⟩).2 = "image saved with id: " ++ toString saved.ID ++ "\n"
              ++ "image sent to nsq\n") := by
  obtain ⟨items, final, hshape, hrun⟩ := postImagesLoop_items deps p.Paths st
  obtain ⟨hcalls, hbody, -, hstatus⟩ := hrun (w.Write (service.header p)) []
  obtain ⟨hlen, hget⟩ := List.forall₂_iff_get.mp hshape
  rw [postImages_accepted J deps w body st p hdec hne]
  refine ⟨items, hlen.symm, by simpa using hcalls, ?_, ?_, ?_⟩
  · rw [hbody]
    simp [ResponseWriter.Write]
  · exact hstatus _ (by simp [ResponseWriter.Write])
  · intro k hk hi
    rcases hget k hk hi with ⟨err, h⟩ | ⟨saved, err, h⟩ | ⟨saved, h⟩
    · exact Or.inl ⟨err, "; moving on to next...", by rw [h], by rw [h]⟩
    · exact Or.inr (Or.inl ⟨saved, err, "", by rw [h], by rw [h]; simp⟩)
    · exact Or.inr (Or.inr ⟨saved, by rw [h], by rw [h]⟩)

/-- C8, amended, at the batch `["/a.jpg"]` with a send provider that fails. -/
theorem postImages_text_per_item_witness :
    service.docJson.decodePaths (service.batchBody ["/a.jpg"]) = .ok ⟨[⟨"/a.jpg"⟩]⟩ ∧
    ([⟨"/a.jpg"⟩] : List service.Path) ≠ [] ∧
    ∃ items : List (List service.Call × String),
      items.length = 1 ∧
      (service.postImages service.docJson
          (service.storeDependencies sql.Faults.none (some "queue down"))
          ResponseWriter.fresh (service.batchBody ["/a.jpg"]) service.emptyStore).calls
        = (items.map Prod.fst).flatten ∧
      (service.postImages service.docJson
          (service.storeDependencies sql.Faults.none (some "queue down"))
          ResponseWriter.fresh (service.batchBody ["/a.jpg"]) service.emptyStore).w.body
        = ResponseWriter.fresh.body ++ service.header ⟨[⟨"/a.jpg"⟩]⟩
            ++ String.join (items.map Prod.snd) ∧
      (service.postImages service.docJson
          (service.storeDependencies sql.Faults.none (some "queue down"))
          ResponseWriter.fresh (service.batchBody ["/a.jpg"]) service.emptyStore).w.status
        = some (ResponseWriter.fresh.status.getD 200) ∧
      ∀ (k : Nat) (hk : k < 1) (hi : k < items.length),
        (∃ err rest,
          (items.get ⟨k, hi⟩).1 =
            [service.Call.SaveImage
              (service.newImage ([(⟨"/a.jpg"⟩ : service.Path)].get ⟨k, hk⟩)) (.error err)] ∧
          (items.get ⟨k, hi⟩).2 = "got error while saving image: " ++ err ++ rest) ∨
        (∃ saved err rest,
          (items.get ⟨k, hi⟩).1 =
            [service.Call.SaveImage
              (service.newImage ([(⟨"/a.jpg"⟩ : service.Path)].get ⟨k, hk⟩)) (.ok saved),
             service.Call.SendImage (uint64 saved.ID) (some err)] ∧
          (items.get ⟨k, hi⟩).2 = "image saved with id: " ++ toString saved.ID ++ "\n"
              ++ ("error while sending image to queue: " ++ err ++ rest)) ∨
        (∃ saved,
          (items.get ⟨k, hi⟩).1 =
            [service.Call.SaveImage
              (service.newImage ([(⟨"/a.jpg"⟩ : service.Path)].get ⟨k, hk⟩)) (.ok saved),
             service.Call.SendImage (uint64 saved.ID) none] ∧
          (items.get ⟨k, hi⟩).2 = "image saved with id: " ++ toString saved.ID ++ "\n"
              ++ "image sent to nsq\n") :=
  ⟨by decide, by decide,
   postImages_text_per_item service.docJson
     (service.storeDependencies sql.Faults.none (some "queue down"))
     ResponseWriter.fresh (service.batchBody ["/a.jpg"]) service.emptyStore
     ⟨[⟨"/a.jpg"⟩]⟩ (by decide) (by decide)⟩

/-! ## C9: the records handed to `SaveImage` -/

/-- C9. For every accepted batch and every behaviour of the providers, the
records `postImages` passes to `SaveImage`, in the order of the calls, are one
per submitted path in submission order, each with `ID = -1`, `PersonID = -1`,
`Status = PENDING` and `Path` the bytes of the submitted path. -/
theorem postImages_saves_pending_records {Body σ : Type} (J : service.Json Body)
    (deps : service.Dependencies σ) (w : ResponseWriter) (body : Body) (st : σ)
    (p : service.Paths) (hdec : J.decodePaths body = .ok p) (hne : p.Paths ≠ []) :
    (service.postImages J deps w body st).calls.filterMap service.Call.saveArgument
      = p.Paths.map (fun path =>
          ({ ID := -1, PersonID := -1, Path := bytesOf path.Path,
             Status := models.PENDING } : models.Image)) := by
  obtain ⟨items, final, hshape, hrun⟩ := postImagesLoop_items deps p.Paths st
  obtain ⟨hcalls, -, -, -⟩ := hrun (w.Write (service.header p)) []
  rw [postImages_accepted J deps w body st p hdec hne, hcalls, List.nil_append]
  clear hcalls hrun hne hdec
  generalize p.Paths = paths at hshape ⊢
  induction hshape with
  | nil => rfl
  | cons h _ ih =>
    simp only [List.map_cons, List.flatten_cons, List.filterMap_append, ih]
    rcases h with ⟨err, h⟩ | ⟨saved, err, h⟩ | ⟨saved, h⟩ <;>
      simp [h, service.Call.saveArgument, service.newImage]

/-- C9 at the batch `["/a.jpg", "/b.jpg"]` with providers that succeed. -/
theorem postImages_saves_pending_records_witness :
    service.docJson.decodePaths (service.batchBody ["/a.jpg", "/b.jpg"])
        = .ok ⟨[⟨"/a.jpg"⟩, ⟨"/b.jpg"⟩]⟩ ∧
    ([⟨"/a.jpg"⟩, ⟨"/b.jpg"⟩] : List service.Path) ≠ [] ∧
    (service.postImages service.docJson (service.storeDependencies sql.Faults.none none)
        ResponseWriter.fresh (service.batchBody ["/a.jpg", "/b.jpg"])
        service.emptyStore).calls.filterMap service.Call.saveArgument
      = ([⟨"/a.jpg"⟩, ⟨"/b.jpg"⟩] : List service.Path).map (fun path =>
          ({ ID := -1, PersonID := -1, Path := bytesOf path.Path,
             Status := models.PENDING } : models.Image)) :=
  ⟨by decide, by decide,
   postImages_saves_pending_records service.docJson
     (service.storeDependencies sql.Faults.none none)
     ResponseWriter.fresh (service.batchBody ["/a.jpg", "/b.jpg"]) service.emptyStore
     ⟨[⟨"/a.jpg"⟩, ⟨"/b.jpg"⟩]⟩ (by decide) (by decide)⟩

/-! ## C5: rejected requests -/

/-- C5. Run as a handler (on a fresh writer), `postImages` answers a body that
cannot be decoded, and a body whose decoded `paths` is empty, with status 400,
and in both cases calls neither `SaveImage` nor `SendImage` and leaves the
world as it was. -/
theorem postImages_rejects_bad_requests {Body σ : Type} (J : service.Json Body)
    (deps : service.Dependencies σ) (body : Body) (st : σ)
    (hbad : (∃ err, J.decodePaths body = .error err) ∨ J.decodePaths body = .ok ⟨[]⟩) :
    (service.postImages J deps ResponseWriter.fresh body st).w.finalStatus = 400 ∧
    (service.postImages J deps ResponseWriter.fresh body st).calls = [] ∧
    (service.postImages J deps ResponseWriter.fresh body st).st = st := by
  rcases hbad with ⟨err, h⟩ | h
  · simp [service.postImages, h, httpError, ResponseWriter.finalStatus,
      ResponseWriter.Write, ResponseWriter.WriteHeader, ResponseWriter.fresh]
  · simp [service.postImages, h, httpError, ResponseWriter.finalStatus,
      ResponseWriter.Write, ResponseWriter.WriteHeader, ResponseWriter.fresh]

/-- C5 at the body whose member `paths` is the empty list. -/
theorem postImages_rejects_bad_requests_witness :
    ((∃ err, service.docJson.decodePaths (service.batchBody []) = .error err) ∨
      service.docJson.decodePaths (service.batchBody []) = .ok ⟨[]⟩) ∧
    (service.postImages service.docJson (service.storeDependencies sql.Faults.none none)
        ResponseWriter.fresh (service.batchBody []) service.emptyStore).w.finalStatus = 400 ∧
    (service.postImages service.docJson (service.storeDependencies sql.Faults.none none)
        ResponseWriter.fresh (service.batchBody []) service.emptyStore).calls = [] ∧
    (service.postImages service.docJson (service.storeDependencies sql.Faults.none none)
        ResponseWriter.fresh (service.batchBody []) service.emptyStore).st
      = service.emptyStore :=
  ⟨Or.inr (by decide),
   postImages_rejects_bad_requests service.docJson
     (service.storeDependencies sql.Faults.none none) (service.batchBody [])
     service.emptyStore (Or.inr (by decide))⟩

/-! ## C2: empty paths in a batch -/

/-- C2 fails on the code: `postImages` does not look at the path of an item.
On the batch `["/a.jpg", "", "/b.jpg"]` with a store that assigns the ids
1, 2, ... it calls `SaveImage` for the empty path as well, and `SendImage`
three times, with 1, 2 and 3; the response has no line for a validation
failure. -/
theorem postImages_saves_empty_path :
    (service.postImages service.docJson (service.storeDependencies sql.Faults.none none)
        ResponseWriter.fresh (service.batchBody ["/a.jpg", "", "/b.jpg"])
        service.emptyStore).calls
      = [ service.Call.SaveImage (service.newImage ⟨"/a.jpg"⟩)
            (.ok { service.newImage ⟨"/a.jpg"⟩ with ID := 1 }),
          service.Call.SendImage 1 none,
          service.Call.SaveImage (service.newImage ⟨""⟩)
            (.ok { service.newImage ⟨""⟩ with ID := 2 }),
          service.Call.SendImage 2 none,
          service.Call.SaveImage (service.newImage ⟨"/b.jpg"⟩)
            (.ok { service.newImage ⟨"/b.jpg"⟩ with ID := 3 }),
          service.Call.SendImage 3 none ] ∧
    (service.postImages service.docJson (service.storeDependencies sql.Faults.none none)
        ResponseWriter.fresh (service.batchBody ["/a.jpg", "", "/b.jpg"])
        service.emptyStore).calls.filterMap service.Call.sendArgument = [1, 2, 3] ∧
    (service.postImages service.docJson (service.storeDependencies sql.Faults.none none)
        ResponseWriter.fresh (service.batchBody ["/a.jpg", "", "/b.jpg"])
        service.emptyStore).w.body
      = "got paths: \x7bPaths:[\x7bPath:/a.jpg\x7d \x7bPath:\x7d \x7bPath:/b.jpg\x7d]\x7d with length: 3\n"
        ++ "image saved with id: 1\nimage sent to nsq\n"
        ++ "image saved with id: 2\nimage sent to nsq\n"
        ++ "image saved with id: 3\nimage sent to nsq\n" ∧
    (service.postImages service.docJson (service.storeDependencies sql.Faults.none none)
        ResponseWriter.fresh (service.batchBody ["/a.jpg", "", "/b.jpg"])
        service.emptyStore).st.images
      = [⟨1, bytesOf "/a.jpg", -1, models.PENDING.code⟩, ⟨2, [], -1, models.PENDING.code⟩,
         ⟨3, bytesOf "/b.jpg", -1, models.PENDING.code⟩] := by
  decide

/-- The sibling handler `postImage` does reject the empty path: status 400 and
no call to a provider. -/
theorem postImage_rejects_empty_path {Body σ : Type} (J : service.Json Body)
    (deps : service.Dependencies σ) (body : Body) (st : σ)
    (hdec : J.decodePath body = .ok ⟨""⟩) :
    (service.postImage J deps ResponseWriter.fresh body st).w.finalStatus = 400 ∧
    (service.postImage J deps ResponseWriter.fresh body st).calls = [] := by
  simp [service.postImage, hdec, httpError, ResponseWriter.finalStatus,
    ResponseWriter.Write, ResponseWriter.WriteHeader, ResponseWriter.fresh]

/-! ## C4: `postImage` and the one-element batch -/

/-- C4, as stated, fails: on the path `/a.jpg`, `postImage` and `postImages` on
the one-element batch do not write the same response text. -/
theorem postImage_text_differs_from_batch :
    ¬ ((service.postImage service.docJson (service.storeDependencies sql.Faults.none none)
          ResponseWriter.fresh (service.singleBody "/a.jpg") service.emptyStore).calls
        = (service.postImages service.docJson (service.storeDependencies sql.Faults.none none)
          ResponseWriter.fresh (service.batchBody ["/a.jpg"]) service.emptyStore).calls ∧
       (service.postImage service.docJson (service.storeDependencies sql.Faults.none none)
          ResponseWriter.fresh (service.singleBody "/a.jpg") service.emptyStore).w.finalStatus
        = (service.postImages service.docJson (service.storeDependencies sql.Faults.none none)
          ResponseWriter.fresh (service.batchBody ["/a.jpg"]) service.emptyStore).w.finalStatus ∧
       (service.postImage service.docJson (service.storeDependencies sql.Faults.none none)
          ResponseWriter.fresh (service.singleBody "/a.jpg") service.emptyStore).w.body
        = (service.postImages service.docJson (service.storeDependencies sql.Faults.none none)
          ResponseWriter.fresh (service.batchBody ["/a.jpg"]) service.emptyStore).w.body) := by
  decide

/-- C4, amended. For every non-empty path `p`, every behaviour of the
providers and every `encoding/json` that decodes the encoding of the
one-element batch back to it, `postImage` on a body that decodes to `p` makes
the same calls with the same arguments, leaves the same world and has the same
status, 200, as `postImages` on a body that decodes to the one-element batch; its
response text is the line `got path: ` with the `%+v` form of the path, followed by the response text
of `postImages`. -/
theorem postImage_delegates_to_batch {Body σ : Type} (J : service.Json Body)
    (deps : service.Dependencies σ) (single batch : Body) (st : σ) (p : String)
    (hp : p ≠ "")
    (hsingle : J.decodePath single = .ok ⟨p⟩)
    (hbatch : J.decodePaths batch = .ok ⟨[⟨p⟩]⟩)
    (hround : ∃ b, J.encodePaths ⟨[⟨p⟩]⟩ = .ok b ∧ J.decodePaths b = .ok ⟨[⟨p⟩]⟩) :
    (service.postImage J deps ResponseWriter.fresh single st).calls
      = (service.postImages J deps ResponseWriter.fresh batch st).calls ∧
    (service.postImage J deps ResponseWriter.fresh single st).st
      = (service.postImages J deps ResponseWriter.fresh batch st).st ∧
    (service.postImage J deps ResponseWriter.fresh single st).w.finalStatus
      = (service.postImages J deps ResponseWriter.fresh batch st).w.finalStatus ∧
    (service.postImages J deps ResponseWriter.fresh batch st).w.finalStatus = 200 ∧
    (service.postImage J deps ResponseWriter.fresh single st).w.body
      = "got path: " ++ service.fmtPath ⟨p⟩ ++ "\n"
          ++ (service.postImages J deps ResponseWriter.fresh batch st).w.body := by
  obtain ⟨b, henc, hdec⟩ := hround
  have hne : (⟨[⟨p⟩]⟩ : service.Paths).Paths ≠ [] := by simp
  have hone : service.postImage J deps ResponseWriter.fresh single st
      = service.postImages J deps
          (ResponseWriter.fresh.Write ("got path: " ++ service.fmtPath ⟨p⟩ ++ "\n")) b st := by
    simp [service.postImage, hsingle, hp, henc]
  rw [hone, postImages_accepted J deps _ b st _ hdec hne,
    postImages_accepted J deps _ batch st _ hbatch hne]
  obtain ⟨items, final, -, hrun⟩ := postImagesLoop_items deps [⟨p⟩] st
  obtain ⟨c1, b1, s1, t1⟩ := hrun
    ((ResponseWriter.fresh.Write ("got path: " ++ service.fmtPath ⟨p⟩ ++ "\n")).Write
      (service.header ⟨[⟨p⟩]⟩)) []
  obtain ⟨c2, b2, s2, t2⟩ := hrun (ResponseWriter.fresh.Write (service.header ⟨[⟨p⟩]⟩)) []
  refine ⟨by rw [c1, c2], by rw [s1, s2], ?_, ?_, ?_⟩
  · simp only [ResponseWriter.finalStatus]
    rw [t1 200 (by simp [ResponseWriter.Write, ResponseWriter.fresh]),
      t2 200 (by simp [ResponseWriter.Write, ResponseWriter.fresh])]
  · simp only [ResponseWriter.finalStatus]
    rw [t2 200 (by simp [ResponseWriter.Write, ResponseWriter.fresh])]
    rfl
  · rw [b1, b2]
    simp [ResponseWriter.Write, ResponseWriter.fresh, String.append_assoc]

/-- C4, amended, at the path `/a.jpg`. -/
theorem postImage_delegates_to_batch_witness :
    ("/a.jpg" ≠ "") ∧
    service.docJson.decodePath (service.singleBody "/a.jpg") = .ok ⟨"/a.jpg"⟩ ∧
    service.docJson.decodePaths (service.batchBody ["/a.jpg"]) = .ok ⟨[⟨"/a.jpg"⟩]⟩ ∧
    (∃ b, service.docJson.encodePaths ⟨[⟨"/a.jpg"⟩]⟩ = .ok b ∧
      service.docJson.decodePaths b = .ok ⟨[⟨"/a.jpg"⟩]⟩) ∧
    (service.postImage service.docJson (service.storeDependencies sql.Faults.none none)
        ResponseWriter.fresh (service.singleBody "/a.jpg") service.emptyStore).calls
      = (service.postImages service.docJson (service.storeDependencies sql.Faults.none none)
        ResponseWriter.fresh (service.batchBody ["/a.jpg"]) service.emptyStore).calls ∧
    (service.postImage service.docJson (service.storeDependencies sql.Faults.none none)
        ResponseWriter.fresh (service.singleBody "/a.jpg") service.emptyStore).st
      = (service.postImages service.docJson (service.storeDependencies sql.Faults.none none)
        ResponseWriter.fresh (service.batchBody ["/a.jpg"]) service.emptyStore).st ∧
    (service.postImage service.docJson (service.storeDependencies sql.Faults.none none)
        ResponseWriter.fresh (service.singleBody "/a.jpg") service.emptyStore).w.finalStatus
      = (service.postImages service.docJson (service.storeDependencies sql.Faults.none none)
        ResponseWriter.fresh (service.batchBody ["/a.jpg"]) service.emptyStore).w.finalStatus ∧
    (service.postImages service.docJson (service.storeDependencies sql.Faults.none none)
        ResponseWriter.fresh (service.batchBody ["/a.jpg"]) service.emptyStore).w.finalStatus
      = 200 ∧
    (service.postImage service.docJson (service.storeDependencies sql.Faults.none none)
        ResponseWriter.fresh (service.singleBody "/a.jpg") service.emptyStore).w.body
      = "got path: " ++ service.fmtPath ⟨"/a.jpg"⟩ ++ "\n"
          ++ (service.postImages service.docJson
                (service.storeDependencies sql.Faults.none none)
                ResponseWriter.fresh (service.batchBody ["/a.jpg"]) service.emptyStore).w.body :=
  ⟨by decide, by decide, by decide, ⟨_, rfl, by decide⟩,
   postImage_delegates_to_batch service.docJson
     (service.storeDependencies sql.Faults.none none)
     (service.singleBody "/a.jpg") (service.batchBody ["/a.jpg"]) service.emptyStore "/a.jpg"
     (by decide) (by decide) (by decide) ⟨_, rfl, by decide⟩⟩

/-! ## C3: save, then load -/

/-- The callback of `LoadImage` in `pkg/providers/images` fails on every
transaction: the query fails, or no row matches, or `Scan` rejects the fourth
destination, which is not a pointer. -/
theorem providers_LoadImage_callback_fails (F : sql.Faults) (id : Int)
    (k : providers.images.LoadImage.Vars) (tx : sql.Session) :
    ∃ err, (providers.images.LoadImage.f F id k tx).1 = some err := by
  rcases hq : F.stmtErr with _ | e
  · cases hrow : List.find? (fun row => decide (row.id = id)) (tx.store.images ++ tx.staged) <;>
      simp [providers.images.LoadImage.f, providers.images.LoadImage.dest, sql.QueryRow,
        sql.Scan, sql.scanColumns, sql.Row.columns, hq, hrow]
  · simp [providers.images.LoadImage.f, sql.QueryRow, sql.Scan, hq]

/-- In `pkg/providers/images`, `execInTx` returns an error whenever its callback does. -/
theorem providers_execInTx_fails_of_callback {κ : Type} (F : sql.Faults)
    (f : κ → sql.Session → Option String × κ × sql.Session) (k : κ) (s : sql.Session)
    (hf : ∀ k s, ∃ err, (f k s).1 = some err) :
    ∃ err, (providers.images.execInTx F f k s).1 = some err := by
  unfold providers.images.execInTx
  rcases hc : providers.images.connect F s with ⟨_ | e, s1⟩
  · rcases hb : sql.BeginTx F s1 with ⟨_ | e, s2⟩
    · obtain ⟨err, herr⟩ := hf k s2
      rcases hfk : f k s2 with ⟨r, k2, s3⟩
      rw [hfk] at herr
      simp only at herr
      subst herr
      rcases hr : sql.Rollback F s3 with ⟨_ | e, s4⟩ <;>
        rcases hcl : sql.Close F s4 with ⟨_ | e, s5⟩ <;>
        simp [hb, hfk, hr, hcl, errorsJoin]
    · rcases hcl : sql.Close F s2 with ⟨_ | e, s5⟩ <;> simp [hb, hcl, errorsJoin]
  · simp

/-- The method `LoadImage` of `pkg/providers/images` returns an error on every
database, for every id and whatever the `database/sql` calls return. -/
theorem providers_LoadImage_fails (F : sql.Faults) (id : Int) (store : sql.Store) :
    ∃ err, (providers.images.LoadImage F id store).1 = .error err := by
  obtain ⟨err, herr⟩ := providers_execInTx_fails_of_callback F
    (providers.images.LoadImage.f F id) ⟨0, [], 0, 0⟩ (sql.Session.start store)
    (providers_LoadImage_callback_fails F id)
  rcases hrun : providers.images.execInTx F (providers.images.LoadImage.f F id) ⟨0, [], 0, 0⟩
    (sql.Session.start store) with ⟨r, k, s⟩
  rw [hrun] at herr
  simp only at herr
  subst herr
  simp [providers.images.LoadImage, hrun]

/-- The callback of `LoadImage` in `pkg/images` fails on every transaction. -/
theorem images_LoadImage_callback_fails (F : sql.Faults) (id : Int)
    (k : images.LoadImage.Vars) (tx : sql.Session) :
    ∃ err, (images.LoadImage.f F id k tx).1 = some err := by
  rcases hq : F.stmtErr with _ | e
  · cases hrow : List.find? (fun row => decide (row.id = id)) (tx.store.images ++ tx.staged) <;>
      simp [images.LoadImage.f, images.LoadImage.dest, sql.QueryRow,
        sql.Scan, sql.scanColumns, sql.Row.columns, hq, hrow]
  · simp [images.LoadImage.f, sql.QueryRow, sql.Scan, hq]

/-- In `pkg/images`, `execInTx` returns an error whenever its callback does. -/
theorem images_execInTx_fails_of_callback {κ : Type} (F : sql.Faults)
    (f : κ → sql.Session → Option String × κ × sql.Session) (k : κ) (s : sql.Session)
    (hf : ∀ k s, ∃ err, (f k s).1 = some err) :
    ∃ err, (images.execInTx F f k s).1 = some err := by
  unfold images.execInTx
  rcases hc : images.connect F s with ⟨_ | e, s1⟩
  · rcases hb : sql.BeginTx F s1 with ⟨_ | e, s2⟩
    · obtain ⟨err, herr⟩ := hf k s2
      rcases hfk : f k s2 with ⟨r, k2, s3⟩
      rw [hfk] at herr
      simp only at herr
      subst herr
      simp [hb, hfk]
    · simp [hb]
  · simp

/-- The method `LoadImage` of `pkg/images` returns an error on every database,
for every id and whatever the `database/sql` calls return. -/
theorem images_LoadImage_fails (F : sql.Faults) (id : Int) (store : sql.Store) :
    ∃ err, (images.LoadImage F id store).1 = .error err := by
  obtain ⟨err, herr⟩ := images_execInTx_fails_of_callback F
    (images.LoadImage.f F id) ⟨0, [], 0, 0⟩ (sql.Session.start store)
    (images_LoadImage_callback_fails F id)
  rcases hrun : images.execInTx F (images.LoadImage.f F id) ⟨0, [], 0, 0⟩
    (sql.Session.start store) with ⟨r, k, s⟩
  rw [hrun] at herr
  simp only at herr
  subst herr
  simp [images.LoadImage, hrun]

/-- C3 fails on the code. On the empty database with every `database/sql` call
succeeding, `SaveImage` of the `PENDING` record for `/a.jpg` succeeds with id
1 and commits the row, and `LoadImage(1)` on the resulting database returns an
error instead of the record, in both implementations: `Scan` is handed the
value of `status` where a pointer is required. -/
theorem LoadImage_after_SaveImage_fails :
    (providers.images.SaveImage sql.Faults.none (service.newImage ⟨"/a.jpg"⟩)
        service.emptyStore).1
      = .ok { service.newImage ⟨"/a.jpg"⟩ with ID := 1 } ∧
    (providers.images.SaveImage sql.Faults.none (service.newImage ⟨"/a.jpg"⟩)
        service.emptyStore).2.store.images
      = [⟨1, bytesOf "/a.jpg", -1, models.PENDING.code⟩] ∧
    (providers.images.LoadImage sql.Faults.none 1
        (providers.images.SaveImage sql.Faults.none (service.newImage ⟨"/a.jpg"⟩)
          service.emptyStore).2.store).1
      = .error ("failed to run query in transaction: failed to run function in transaction: "
          ++ "failed to run query: sql: Scan error on column index 3, name \"status\": "
          ++ "destination not a pointer") ∧
    (images.SaveImage sql.Faults.none (service.newImage ⟨"/a.jpg"⟩) service.emptyStore).1
      = .ok { service.newImage ⟨"/a.jpg"⟩ with ID := 1 } ∧
    (images.LoadImage sql.Faults.none 1
        (images.SaveImage sql.Faults.none (service.newImage ⟨"/a.jpg"⟩)
          service.emptyStore).2.store).1
      = .error ("failed to run query in transaction: failed to run function in transaction: "
          ++ "failed to run query: sql: Scan error on column index 3, name \"status\": "
          ++ "destination not a pointer") := by
  decide

/-! ## C6 and C7: rollback and release in `execInTx` -/

/-- In `pkg/images`, every run of `SaveImage` in which the transaction was
begun ends with `Close` and then `Rollback` having been called, and a run that
returns an error has no successful `Commit`. -/
theorem images_SaveImage_rolls_back (F : sql.Faults) (image : models.Image)
    (store : sql.Store)
    (hbegun : sql.txBegun (images.SaveImage F image store).2.log = true) :
    sql.closeCalled (images.SaveImage F image store).2.log = true ∧
    sql.rollbackCalled (images.SaveImage F image store).2.log = true ∧
    ((∃ err, (images.SaveImage F image store).1 = .error err) →
      sql.txCommitted (images.SaveImage F image store).2.log = false) := by
  rcases F with ⟨o, pg, b, q, c, r, cl⟩
  revert hbegun
  cases o <;> cases b <;> cases q <;> cases c <;>
    simp [images.SaveImage, images.execInTx, images.connect, images.SaveImage.f, sql.Open,
      sql.BeginTx, sql.Exec, sql.Commit, sql.Rollback, sql.Close, sql.Session.start,
      sql.txBegun, sql.closeCalled, sql.rollbackCalled, sql.txCommitted]

/-- In `pkg/providers/images`, a run of `SaveImage` in which the transaction
was begun and the insert failed has called `Rollback` and then `Close`, and has
no successful `Commit`. -/
theorem providers_SaveImage_rolls_back_failed_insert (F : sql.Faults)
    (image : models.Image) (store : sql.Store)
    (hbegun : sql.txBegun (providers.images.SaveImage F image store).2.log = true)
    (hstmt : F.stmtErr ≠ none) :
    sql.rollbackCalled (providers.images.SaveImage F image store).2.log = true ∧
    sql.closeCalled (providers.images.SaveImage F image store).2.log = true ∧
    sql.txCommitted (providers.images.SaveImage F image store).2.log = false := by
  rcases F with ⟨o, pg, b, q, c, r, cl⟩
  revert hbegun hstmt
  cases o <;> cases pg <;> cases b <;> cases q <;> cases r <;> cases cl <;>
    simp [providers.images.SaveImage, providers.images.execInTx, providers.images.connect,
      providers.images.SaveImage.f, sql.Open, sql.Ping, sql.BeginTx, sql.Exec, sql.Rollback,
      sql.Close, sql.Session.start, sql.txBegun, sql.closeCalled, sql.rollbackCalled,
      sql.txCommitted, errorsJoin]

/-- C6 fails on the code of `pkg/providers/images`. When every call succeeds
up to the insert and `Commit` returns an error, `execInTx` returns that error
without `Rollback` having been called on the transaction it began. -/
theorem execInTx_commit_failure_without_rollback :
    (providers.images.execInTx { sql.Faults.none with commitErr := some "commit failed" }
        (providers.images.SaveImage.f
          { sql.Faults.none with commitErr := some "commit failed" }
          (service.newImage ⟨"/a.jpg"⟩))
        none (sql.Session.start service.emptyStore)).1
      = some "failed to commit transaction: commit failed" ∧
    (providers.images.execInTx { sql.Faults.none with commitErr := some "commit failed" }
        (providers.images.SaveImage.f
          { sql.Faults.none with commitErr := some "commit failed" }
          (service.newImage ⟨"/a.jpg"⟩))
        none (sql.Session.start service.emptyStore)).2.2.log
      = [sql.Event.Open none, sql.Event.Ping none, sql.Event.BeginTx none,
         sql.Event.Exec none, sql.Event.Commit (some "commit failed"),
         sql.Event.Close none] ∧
    sql.txBegun
      (providers.images.execInTx { sql.Faults.none with commitErr := some "commit failed" }
        (providers.images.SaveImage.f
          { sql.Faults.none with commitErr := some "commit failed" }
          (service.newImage ⟨"/a.jpg"⟩))
        none (sql.Session.start service.emptyStore)).2.2.log = true ∧
    sql.rollbackCalled
      (providers.images.execInTx { sql.Faults.none with commitErr := some "commit failed" }
        (providers.images.SaveImage.f
          { sql.Faults.none with commitErr := some "commit failed" }
          (service.newImage ⟨"/a.jpg"⟩))
        none (sql.Session.start service.emptyStore)).2.2.log = false := by
  decide

/-- In `pkg/providers/images`, a run of `SaveImage` in which `Ping` and
`Commit` do not fail releases what it acquired: an opened handle is closed, a
begun transaction is committed or rolled back. -/
theorem providers_SaveImage_releases (F : sql.Faults) (image : models.Image)
    (store : sql.Store) (hping : F.pingErr = none) (hcommit : F.commitErr = none) :
    (sql.handleOpened (providers.images.SaveImage F image store).2.log = true →
      sql.closeCalled (providers.images.SaveImage F image store).2.log = true) ∧
    (sql.txBegun (providers.images.SaveImage F image store).2.log = true →
      sql.txCommitted (providers.images.SaveImage F image store).2.log = true ∨
      sql.rollbackCalled (providers.images.SaveImage F image store).2.log = true) := by
  rcases F with ⟨o, pg, b, q, c, r, cl⟩
  simp only at hping hcommit
  subst hping hcommit
  cases o <;> cases b <;> cases q <;> cases r <;> cases cl <;>
    simp [providers.images.SaveImage, providers.images.execInTx, providers.images.connect,
      providers.images.SaveImage.f, sql.Open, sql.Ping, sql.BeginTx, sql.Exec, sql.Rollback,
      sql.Commit, sql.Close, sql.Session.start, sql.txBegun, sql.closeCalled,
      sql.rollbackCalled, sql.txCommitted, sql.handleOpened, errorsJoin]

/-- In `pkg/images`, a run of `SaveImage` in which `BeginTx` does not fail
releases what it acquired. -/
theorem images_SaveImage_releases (F : sql.Faults) (image : models.Image)
    (store : sql.Store) (hbegin : F.beginErr = none) :
    (sql.handleOpened (images.SaveImage F image store).2.log = true →
      sql.closeCalled (images.SaveImage F image store).2.log = true) ∧
    (sql.txBegun (images.SaveImage F image store).2.log = true →
      sql.txCommitted (images.SaveImage F image store).2.log = true ∨
      sql.rollbackCalled (images.SaveImage F image store).2.log = true) := by
  rcases F with ⟨o, pg, b, q, c, r, cl⟩
  simp only at hbegin
  subst hbegin
  cases o <;> cases q <;> cases c <;>
    simp [images.SaveImage, images.execInTx, images.connect, images.SaveImage.f, sql.Open,
      sql.BeginTx, sql.Exec, sql.Commit, sql.Rollback, sql.Close, sql.Session.start,
      sql.txBegun, sql.closeCalled, sql.rollbackCalled, sql.txCommitted, sql.handleOpened]

/-- C7 fails on the code. In `pkg/images`, when `BeginTx` fails, `execInTx`
returns with the handle it opened never closed; in `pkg/providers/images`,
when `Ping` fails, `connect` returns with the handle it opened never closed,
and when `Commit` fails, `execInTx` returns with the transaction neither
committed nor rolled back. -/
theorem execInTx_exit_paths_that_leak :
    ((images.execInTx { sql.Faults.none with beginErr := some "begin failed" }
        (images.SaveImage.f { sql.Faults.none with beginErr := some "begin failed" }
          (service.newImage ⟨"/a.jpg"⟩))
        none (sql.Session.start service.emptyStore)).1
        = some "failed to create transaction: begin failed" ∧
     (images.execInTx { sql.Faults.none with beginErr := some "begin failed" }
        (images.SaveImage.f { sql.Faults.none with beginErr := some "begin failed" }
          (service.newImage ⟨"/a.jpg"⟩))
        none (sql.Session.start service.emptyStore)).2.2.log
        = [sql.Event.Open none, sql.Event.BeginTx (some "begin failed")] ∧
     sql.handleOpened
        (images.SaveImage { sql.Faults.none with beginErr := some "begin failed" }
          (service.newImage ⟨"/a.jpg"⟩) service.emptyStore).2.log = true ∧
     sql.closeCalled
        (images.SaveImage { sql.Faults.none with beginErr := some "begin failed" }
          (service.newImage ⟨"/a.jpg"⟩) service.emptyStore).2.log = false) ∧
    ((providers.images.execInTx { sql.Faults.none with pingErr := some "ping failed" }
        (providers.images.SaveImage.f { sql.Faults.none with pingErr := some "ping failed" }
          (service.newImage ⟨"/a.jpg"⟩))
        none (sql.Session.start service.emptyStore)).1
        = some ("failed to connect to database: "
            ++ "failed to estabilish connection to database: ping failed") ∧
     (providers.images.execInTx { sql.Faults.none with pingErr := some "ping failed" }
        (providers.images.SaveImage.f { sql.Faults.none with pingErr := some "ping failed" }
          (service.newImage ⟨"/a.jpg"⟩))
        none (sql.Session.start service.emptyStore)).2.2.log
        = [sql.Event.Open none, sql.Event.Ping (some "ping failed")] ∧
     sql.handleOpened
        (providers.images.SaveImage { sql.Faults.none with pingErr := some "ping failed" }
          (service.newImage ⟨"/a.jpg"⟩) service.emptyStore).2.log = true ∧
     sql.closeCalled
        (providers.images.SaveImage { sql.Faults.none with pingErr := some "ping failed" }
          (service.newImage ⟨"/a.jpg"⟩) service.emptyStore).2.log = false) ∧
    (sql.txBegun
        (providers.images.SaveImage { sql.Faults.none with commitErr := some "commit failed" }
          (service.newImage ⟨"/a.jpg"⟩) service.emptyStore).2.log = true ∧
     sql.txCommitted
        (providers.images.SaveImage { sql.Faults.none with commitErr := some "commit failed" }
          (service.newImage ⟨"/a.jpg"⟩) service.emptyStore).2.log = false ∧
     sql.rollbackCalled
        (providers.images.SaveImage { sql.Faults.none with commitErr := some "commit failed" }
          (service.newImage ⟨"/a.jpg"⟩) service.emptyStore).2.log = false) := by
  decide

/-! ## C10: when `SaveImage` returns an error -/

/-- C10, as stated, fails: in `pkg/providers/images`, when every call succeeds
and only `db.Close` returns an error, `Commit` has succeeded and the row is in
the table, yet `execInTx` returns the error of `Close` and `SaveImage` returns
an error. -/
theorem SaveImage_fails_after_commit_when_close_fails :
    sql.txCommitted
      (providers.images.SaveImage { sql.Faults.none with closeErr := some "close failed" }
        (service.newImage ⟨"/a.jpg"⟩) service.emptyStore).2.log = true ∧
    (providers.images.SaveImage { sql.Faults.none with closeErr := some "close failed" }
        (service.newImage ⟨"/a.jpg"⟩) service.emptyStore).2.store.images
      = [⟨1, bytesOf "/a.jpg", -1, models.PENDING.code⟩] ∧
    (providers.images.execInTx { sql.Faults.none with closeErr := some "close failed" }
        (providers.images.SaveImage.f
          { sql.Faults.none with closeErr := some "close failed" }
          (service.newImage ⟨"/a.jpg"⟩))
        none (sql.Session.start service.emptyStore)).1 = some "close failed" ∧
    (providers.images.SaveImage { sql.Faults.none with closeErr := some "close failed" }
        (service.newImage ⟨"/a.jpg"⟩) service.emptyStore).1
      = .error "failed to run transaction: close failed" := by
  decide

/-- C10, amended. For every run of `SaveImage` in `pkg/providers/images`:
`SaveImage` returns an error only if the insert transaction was not committed
or `db.Close` returned an error; and whenever `Commit` succeeds on the
transaction and `db.Close` returns nil, `execInTx` returns nil, `SaveImage`
returns the record with its assigned id, and the row with that id is in the
table. -/
theorem SaveImage_error_only_if_uncommitted_or_close_failed (F : sql.Faults)
    (image : models.Image) (store : sql.Store) :
    ((∃ err, (providers.images.SaveImage F image store).1 = .error err) →
      sql.txCommitted (providers.images.SaveImage F image store).2.log = false ∨
      ∃ cerr, sql.Event.Close (some cerr) ∈ (providers.images.SaveImage F image store).2.log) ∧
    (sql.txCommitted (providers.images.SaveImage F image store).2.log = true →
      sql.Event.Close none ∈ (providers.images.SaveImage F image store).2.log →
      (providers.images.execInTx F (providers.images.SaveImage.f F image) none
          (sql.Session.start store)).1 = none ∧
      (providers.images.SaveImage F image store).1
        = .ok { image with ID := store.lastId + 1 } ∧
      (⟨store.lastId + 1, image.Path, image.PersonID, image.Status.code⟩ : sql.Row)
        ∈ (providers.images.SaveImage F image store).2.store.images) := by
  rcases F with ⟨o, pg, b, q, c, r, cl⟩
  cases o <;> cases pg <;> cases b <;> cases q <;> cases c <;> cases r <;> cases cl <;>
    simp [providers.images.SaveImage, providers.images.execInTx, providers.images.connect,
      providers.images.SaveImage.f, sql.Open, sql.Ping, sql.BeginTx, sql.Exec, sql.Rollback,
      sql.Commit, sql.Close, sql.Session.start, sql.txCommitted, errorsJoin]

/-- C10, amended, at two runs on the empty database: one in which only
`db.Close` fails, one in which every call succeeds. -/
theorem SaveImage_error_only_if_uncommitted_or_close_failed_witness :
    ((∃ err, (providers.images.SaveImage
          { sql.Faults.none with closeErr := some "close failed" }
          (service.newImage ⟨"/a.jpg"⟩) service.emptyStore).1 = .error err) ∧
      (sql.txCommitted (providers.images.SaveImage
          { sql.Faults.none with closeErr := some "close failed" }
          (service.newImage ⟨"/a.jpg"⟩) service.emptyStore).2.log = false ∨
        ∃ cerr, sql.Event.Close (some cerr) ∈ (providers.images.SaveImage
          { sql.Faults.none with closeErr := some "close failed" }
          (service.newImage ⟨"/a.jpg"⟩) service.emptyStore).2.log)) ∧
    (sql.txCommitted (providers.images.SaveImage sql.Faults.none
        (service.newImage ⟨"/a.jpg"⟩) service.emptyStore).2.log = true ∧
      sql.Event.Close none ∈ (providers.images.SaveImage sql.Faults.none
        (service.newImage ⟨"/a.jpg"⟩) service.emptyStore).2.log ∧
      (providers.images.execInTx sql.Faults.none
          (providers.images.SaveImage.f sql.Faults.none (service.newImage ⟨"/a.jpg"⟩)) none
          (sql.Session.start service.emptyStore)).1 = none ∧
      (providers.images.SaveImage sql.Faults.none (service.newImage ⟨"/a.jpg"⟩)
          service.emptyStore).1
        = .ok { service.newImage ⟨"/a.jpg"⟩ with ID := service.emptyStore.lastId + 1 } ∧
      (⟨service.emptyStore.lastId + 1, (service.newImage ⟨"/a.jpg"⟩).Path,
          (service.newImage ⟨"/a.jpg"⟩).PersonID,
          (service.newImage ⟨"/a.jpg"⟩).Status.code⟩ : sql.Row)
        ∈ (providers.images.SaveImage sql.Faults.none (service.newImage ⟨"/a.jpg"⟩)
            service.emptyStore).2.store.images) :=
  ⟨⟨⟨"failed to run transaction: close failed", by decide⟩,
    (SaveImage_error_only_if_uncommitted_or_close_failed
      { sql.Faults.none with closeErr := some "close failed" }
      (service.newImage ⟨"/a.jpg"⟩) service.emptyStore).1
      ⟨"failed to run transaction: close failed", by decide⟩⟩,
   by decide, by decide,
   (SaveImage_error_only_if_uncommitted_or_close_failed sql.Faults.none
      (service.newImage ⟨"/a.jpg"⟩) service.emptyStore).2 (by decide) (by decide)⟩
